import Mathlib

/-!
# Verification of the provider-abstraction and settings-encryption core

Shallow embedding of the credential store (`backend/models/Settings.js`) and
of the LLM dispatch facade / request translator
(`backend/services/llmService.js`) of the EmbeddedAIChat repository, together
with theorems settling the frozen claims about that code.

Conventions of the embedding:
* JavaScript strings are Lean `String`s; byte buffers are `List Nat` with each
  byte below 256.
* JavaScript `null`/`undefined` is `Option.none`; JavaScript string falsiness
  (`!s` is true for `''`, `null` and `undefined`) is made explicit at each
  use site, mirroring the source's truthiness tests.
* Throwing code is modelled with `Option`/`Except`: `none`/`.error` is a
  thrown exception.
* The Node `crypto` primitives (SHA-256, AES-256-CBC with PKCS#7 padding) are
  external library code, not repository code; they are abstracted as a
  `CryptoLib` record of the functions `Settings.js` invokes, and theorems
  that need the library's documented contract (decryption inverts
  encryption) take it as an explicit hypothesis.
-/

namespace EmbeddedAIChat

/-! ## Byte/hex plumbing shared by the credential store

`Buffer.toString('hex')` produces lowercase hex pairs; `Buffer.from(s,'hex')`
decodes pairs (either case) and stops at the first invalid pair, which is
exactly what `hexToBytes` does. -/

/-- Lowercase hex digit for `n < 16` (as produced by `Buffer.toString('hex')`). -/
def hexDigit (n : Nat) : Char :=
  match n with
  | 0 => '0' | 1 => '1' | 2 => '2' | 3 => '3'
  | 4 => '4' | 5 => '5' | 6 => '6' | 7 => '7'
  | 8 => '8' | 9 => '9' | 10 => 'a' | 11 => 'b'
  | 12 => 'c' | 13 => 'd' | 14 => 'e' | _ => 'f'

/-- Hex expansion of a byte list, two digits per byte. -/
def bytesToHexChars : List Nat → List Char
  | [] => []
  | b :: rest => hexDigit (b / 16) :: hexDigit (b % 16) :: bytesToHexChars rest

/-- Rendering of `Buffer.toString('hex')` on a byte list. -/
def bytesToHex (bs : List Nat) : String :=
  ⟨bytesToHexChars bs⟩

/-- Value of a single hex digit character, upper or lower case. -/
def hexVal (c : Char) : Option Nat :=
  if '0' ≤ c ∧ c ≤ '9' then some (c.toNat - '0'.toNat)
  else if 'a' ≤ c ∧ c ≤ 'f' then some (c.toNat - 'a'.toNat + 10)
  else if 'A' ≤ c ∧ c ≤ 'F' then some (c.toNat - 'A'.toNat + 10)
  else none

/-- Decoding of `Buffer.from(s,'hex')`: decode hex pairs, stopping at the first invalid
or incomplete pair (Node truncates silently rather than throwing). -/
def hexToBytes : List Char → List Nat
  | c1 :: c2 :: rest =>
    match hexVal c1, hexVal c2 with
    | some hi, some lo => (16 * hi + lo) :: hexToBytes rest
    | _, _ => []
  | _ => []

/-- JavaScript `String.prototype.split(sep)` on a character separator:
splits at every occurrence, keeping empty segments. -/
def jsSplit (sep : Char) : List Char → List (List Char)
  | [] => [[]]
  | c :: rest =>
    if c = sep then [] :: jsSplit sep rest
    else
      match jsSplit sep rest with
      | [] => [[c]]
      | h :: t => (c :: h) :: t

/-- UTF-8 bytes of a string.  The codepoint map below agrees with UTF-8
exactly on ASCII strings, which is the range the credential claims are
stated over (printable ASCII keys). -/
def utf8Bytes (s : String) : List Nat :=
  s.data.map Char.toNat

/-- Inverse direction (`Buffer.toString('utf8')` on ASCII bytes). -/
def bytesToStr (bs : List Nat) : String :=
  ⟨bs.map Char.ofNat⟩

/-! ## Model of the Node `crypto` primitives used by `Settings.js`

`sha256 s` stands for `crypto.createHash('sha256').update(s).digest()`;
`aesEnc key iv pt` for `createCipheriv('aes-256-cbc',key,iv)` followed by
`update`/`final` over the plaintext bytes; `aesDec key iv ct` for the
corresponding decipher, with `none` standing for the exception `final()`
throws on undecryptable input (e.g. bad padding under a wrong key). -/

structure CryptoLib where
  sha256 : String → List Nat
  aesEnc : List Nat → List Nat → List Nat → List Nat
  aesDec : List Nat → List Nat → List Nat → Option (List Nat)

/-- Model of `Settings.getEncryptionKey`: hash of `process.env.ENCRYPTION_KEY` when
that is set and non-empty (JS `||` falls through on `''`), else of the
hard-coded default string. -/
def getEncryptionKey (L : CryptoLib) (encryptionKeyEnv : Option String) : List Nat :=
  let key :=
    match encryptionKeyEnv with
    | some s => if s = "" then "default-key-change-in-production-32-chars" else s
    | none => "default-key-change-in-production-32-chars"
  L.sha256 key

/-- Model of `Settings.encryptApiKey`: AES-256-CBC encrypt the UTF-8 bytes of the key
under the derived key and the given IV, and render `ivHex ++ ":" ++ ctHex`.
The random IV (`crypto.randomBytes(16)`) is passed in explicitly. -/
def encryptApiKey (L : CryptoLib) (encryptionKeyEnv : Option String)
    (iv : List Nat) (apiKey : String) : String :=
  let key := getEncryptionKey L encryptionKeyEnv
  bytesToHex iv ++ ":" ++ bytesToHex (L.aesEnc key iv (utf8Bytes apiKey))

/-- Model of `Settings.decryptApiKey`: split on `':'`, hex-decode IV and ciphertext,
decrypt.  `none` models every way the original throws: a missing second
segment (`Buffer.from(undefined)`), an IV that is not 16 bytes
(`createDecipheriv` rejects it for aes-256-cbc), or `final()` failing. -/
def decryptApiKey (L : CryptoLib) (encryptionKeyEnv : Option String)
    (encryptedData : String) : Option String :=
  match jsSplit ':' encryptedData.data with
  | ivHex :: encHex :: _ =>
    let iv := hexToBytes ivHex
    if iv.length = 16 then
      match L.aesDec (getEncryptionKey L encryptionKeyEnv) iv (hexToBytes encHex) with
      | some pt => some (bytesToStr pt)
      | none => none
    else none
  | _ => none

/-! ## The `api_keys` table

Modelled as an association list from provider name to the stored `key_hash`
column; `dbLookup` is `SELECT ... WHERE provider = ?` and `upsertRow` is
`INSERT OR REPLACE` keyed on `provider`. -/

def dbLookup : List (String × String) → String → Option String
  | [], _ => none
  | (q, w) :: rest, p => if q = p then some w else dbLookup rest p

def upsertRow : List (String × String) → String → String → List (String × String)
  | [], p, v => [(p, v)]
  | (q, w) :: rest, p, v =>
    if q = p then (p, v) :: rest else (q, w) :: upsertRow rest p v

/-- Model of `Settings.setApiKey`: encrypt, then upsert the row for the provider. -/
def setApiKey (L : CryptoLib) (encryptionKeyEnv : Option String) (iv : List Nat)
    (rows : List (String × String)) (provider apiKey : String) :
    List (String × String) :=
  upsertRow rows provider (encryptApiKey L encryptionKeyEnv iv apiKey)

/-- Model of `Settings.getApiKey`: existence check only (`resolve(!!row)`). -/
def getApiKey (rows : List (String × String)) (provider : String) : Bool :=
  (dbLookup rows provider).isSome

/-- Model of `Settings.getEnvApiKey`: the per-provider environment variable, with JS
`|| null` collapsing an unset or empty value to `none`. -/
def getEnvApiKey (envOpenai envAnthropic : Option String) (provider : String) :
    Option String :=
  let envKey :=
    if provider = "openai" then envOpenai
    else if provider = "anthropic" then envAnthropic
    else none
  match envKey with
  | some v => if v = "" then none else some v
  | none => none

/-- Model of `Settings.getActualApiKey`: decrypt the stored row when present and
truthy, silently falling back to the environment value when there is no row
or decryption throws. -/
def getActualApiKey (L : CryptoLib) (encryptionKeyEnv : Option String)
    (envOpenai envAnthropic : Option String)
    (rows : List (String × String)) (provider : String) : Option String :=
  match dbLookup rows provider with
  | some kh =>
    if kh = "" then getEnvApiKey envOpenai envAnthropic provider
    else
      match decryptApiKey L encryptionKeyEnv kh with
      | some pt => some pt
      | none => getEnvApiKey envOpenai envAnthropic provider
  | none => getEnvApiKey envOpenai envAnthropic provider

/-! ## `llmService.js`: data shapes -/

/-- A chat message (`{role, content}`). -/
structure Message where
  role : String
  content : String
deriving DecidableEq, Repr

/-- One entry of `this.providers`: provider name, endpoint URL, wire-level
model name, and modality tag (`'text'` or `'image'`). -/
structure ProviderConfig where
  provider : String
  endpoint : String
  model : String
  type : String
deriving DecidableEq, Repr

/-- The static registry `this.providers` built in the `LLMService`
constructor, as a lookup from logical model id. -/
def providers : String → Option ProviderConfig
  | "gpt-3.5-turbo" =>
    some ⟨"openai", "https://api.openai.com/v1/chat/completions", "gpt-3.5-turbo", "text"⟩
  | "gpt-4" =>
    some ⟨"openai", "https://api.openai.com/v1/chat/completions", "gpt-4", "text"⟩
  | "gpt-4-turbo-preview" =>
    some ⟨"openai", "https://api.openai.com/v1/chat/completions", "gpt-4-turbo-preview", "text"⟩
  | "dall-e-3" =>
    some ⟨"openai", "https://api.openai.com/v1/images/generations", "dall-e-3", "image"⟩
  | "dall-e-2" =>
    some ⟨"openai", "https://api.openai.com/v1/images/generations", "dall-e-2", "image"⟩
  | "gpt-image-1" =>
    some ⟨"openai", "https://api.openai.com/v1/images/generations", "gpt-image-1", "image"⟩
  | "claude-3-sonnet" =>
    some ⟨"anthropic", "https://api.anthropic.com/v1/messages", "claude-3-sonnet-20240229", "text"⟩
  | "claude-3-opus" =>
    some ⟨"anthropic", "https://api.anthropic.com/v1/messages", "claude-3-opus-20240229", "text"⟩
  | "claude-3-haiku" =>
    some ⟨"anthropic", "https://api.anthropic.com/v1/messages", "claude-3-haiku-20240307", "text"⟩
  | _ => none

/-- The `settings` argument threaded through `sendMessage`.  Numeric fields
are modelled directly as numbers (`temperature` as a rational, which is exact
for every value the claims quantify over); absent fields are `none`. -/
structure CallSettings where
  max_tokens : Option Nat := none
  temperature : Option Rat := none
  image_size : Option String := none
  image_quality : Option String := none
  image_style : Option String := none
deriving DecidableEq, Repr

/-- The `apiKeys` argument of `sendMessage`. -/
structure ApiKeys where
  openai : Option String := none
  anthropic : Option String := none
deriving DecidableEq, Repr

/-- JS falsiness of an optional string: `!x` is true for `undefined`/`null`
and for `''`. -/
def jsFalsy : Option String → Bool
  | none => true
  | some s => s == ""

/-- JS `parseInt(x) || d` on an optional number: `undefined` parses to `NaN`
(falsy) and `0` is falsy, both yielding the default. -/
def jsOrNat (o : Option Nat) (d : Nat) : Nat :=
  match o with
  | some n => if n = 0 then d else n
  | none => d

/-- JS `parseFloat(x) || d` on an optional number, same falsiness rule. -/
def jsOrRat (o : Option Rat) (d : Rat) : Rat :=
  match o with
  | some q => if q = 0 then d else q
  | none => d

/-- JS `x || d` on an optional string. -/
def jsOrStr (o : Option String) (d : String) : String :=
  match o with
  | some s => if s = "" then d else s
  | none => d

/-- Opaque token-usage blob passed through unchanged from the provider reply
to the normalized response (`usage: response.data.usage`). -/
structure Usage where
  prompt_tokens : Nat := 0
  completion_tokens : Nat := 0
deriving DecidableEq, Repr

/-- Outbound OpenAI chat payload built by `callOpenAI`. -/
structure OpenAIPayload where
  model : String
  messages : List Message
  max_tokens : Nat
  temperature : Rat
deriving DecidableEq, Repr

/-- Outbound Anthropic messages payload built by `callAnthropic`; `system`
is the optional top-level system field. -/
structure AnthropicPayload where
  model : String
  max_tokens : Nat
  temperature : Rat
  messages : List Message
  system : Option String
deriving DecidableEq, Repr

/-- Outbound image-generation payload built by `generateImage`; `quality`
and `style` are `none` when the source's "remove undefined values" sweep
drops them. -/
structure ImagePayload where
  model : String
  prompt : String
  n : Nat
  size : String
  quality : Option String
  style : Option String
deriving DecidableEq, Repr

/-- One element of `response.data.choices` in an OpenAI chat reply. -/
structure Choice where
  message : Message
deriving DecidableEq, Repr

/-- OpenAI chat completion reply body. -/
structure OpenAIReply where
  choices : List Choice
  usage : Option Usage := none
deriving DecidableEq, Repr

/-- One element of `response.data.content` in an Anthropic reply. -/
structure ContentBlock where
  text : String
deriving DecidableEq, Repr

/-- Anthropic messages reply body. -/
structure AnthropicReply where
  content : List ContentBlock
  usage : Option Usage := none
deriving DecidableEq, Repr

/-- One element of `response.data.data` in an images/generations reply. -/
structure ImageDatum where
  url : Option String := none
  b64_json : Option String := none
  revised_prompt : Option String := none
deriving DecidableEq, Repr

/-- images/generations reply body. -/
structure ImageReply where
  data : List ImageDatum
deriving DecidableEq, Repr

/-- The normalized response shape produced by all three call paths. -/
structure NormalizedResponse where
  content : String
  type : String
  model : String
  usage : Option Usage := none
  provider : String
  prompt : Option String := none
  revised_prompt : Option String := none
deriving DecidableEq, Repr

/-- The errors `llmService.js` throws, tagged by throw site; the payload is
the datum interpolated into the thrown message. -/
inductive LLMErr where
  /-- Thrown as `Unsupported model: ${model}`. -/
  | unsupportedModel (model : String)
  /-- Thrown as `Image generation requires a user prompt`. -/
  | imagePromptRequired
  /-- Thrown as `${provider} API key not configured`. -/
  | apiKeyNotConfigured (provider : String)
  /-- Thrown as `Invalid image model: ${model}`. -/
  | invalidImageModel (model : String)
  /-- Thrown as `Unsupported provider: ${provider}`. -/
  | unsupportedProvider (provider : String)
  /-- Thrown as `Image generation failed for ${model}: Response structure issue ...` —
  the rewrap of the in-`try` throw `No image URL found in API response`. -/
  | imageStructureIssue (model : String)
  /-- Thrown as `Image generation failed: ${message}`. -/
  | imageGenerationFailed (msg : String)
  /-- Thrown as `OpenAI API Error: ${message}`. -/
  | openaiApiError (msg : String)
  /-- Thrown as `Anthropic API Error: ${message}`. -/
  | anthropicApiError (msg : String)
deriving DecidableEq, Repr

/-! ## `llmService.js`: request shaping (the pure pre-network stage)

`sendMessage` and its helpers are `async` functions whose only effect is a
single `axios.post`; they are factored here into the pure computation that
runs *before* the network call (producing either a thrown error or the
outbound call), and the pure normalization applied to the reply. -/

/-- The single outbound HTTP call a successful pre-network stage produces.
The image constructor also carries the logical model id and the timeout,
which the source computes before posting. -/
inductive OutboundCall where
  | openai (endpoint : String) (payload : OpenAIPayload)
  | anthropic (endpoint : String) (payload : AnthropicPayload)
  | image (modelId : String) (endpoint : String) (timeoutMs : Nat) (payload : ImagePayload)
deriving DecidableEq, Repr

/-- Payload construction inside `callOpenAI`. -/
def openAIPayloadOf (model : String) (messages : List Message)
    (settings : CallSettings) : OpenAIPayload :=
  { model := model
  , messages := messages.map fun msg => { role := msg.role, content := msg.content }
  , max_tokens := jsOrNat settings.max_tokens 2000
  , temperature := jsOrRat settings.temperature 0.7 }

/-- Pre-network part of `callOpenAI`: key guard, then the payload. -/
def callOpenAIPlan (endpoint model : String) (messages : List Message)
    (apiKey : Option String) (settings : CallSettings) :
    Except LLMErr OutboundCall :=
  if jsFalsy apiKey then .error (.apiKeyNotConfigured "OpenAI")
  else .ok (.openai endpoint (openAIPayloadOf model messages settings))

/-- Role coercion applied to each conversation message in `callAnthropic`. -/
def coerceRole (msg : Message) : Message :=
  { role := if msg.role == "assistant" then "assistant" else "user"
  , content := msg.content }

/-- Payload construction inside `callAnthropic`: `find` the first
system-role message anywhere, `filter` out every system-role message, coerce
the remaining roles, and attach the found message's content as the top-level
`system` field when present. -/
def anthropicPayloadOf (model : String) (messages : List Message)
    (settings : CallSettings) : AnthropicPayload :=
  let systemMessage := messages.find? fun msg => msg.role == "system"
  let conversationMessages := messages.filter fun msg => msg.role != "system"
  { model := model
  , max_tokens := jsOrNat settings.max_tokens 1024
  , temperature := jsOrRat settings.temperature 0.7
  , messages := conversationMessages.map coerceRole
  , system := systemMessage.map Message.content }

/-- Pre-network part of `callAnthropic`. -/
def callAnthropicPlan (endpoint model : String) (messages : List Message)
    (apiKey : Option String) (settings : CallSettings) :
    Except LLMErr OutboundCall :=
  if jsFalsy apiKey then .error (.apiKeyNotConfigured "Anthropic")
  else .ok (.anthropic endpoint (anthropicPayloadOf model messages settings))

/-- The object literal `qualityMap` in `generateImage`. -/
def qualityMap (q : String) : Option String :=
  if q = "standard" then some "medium"
  else if q = "hd" then some "high"
  else if q = "low" then some "low"
  else if q = "medium" then some "medium"
  else if q = "high" then some "high"
  else none

/-- Image payload construction in `generateImage`, including the per-model
`quality`/`style` population and the quality remap for `gpt-image-1`. -/
def imagePayloadOf (modelId : String) (cfg : ProviderConfig) (prompt : String)
    (settings : CallSettings) : ImagePayload :=
  let base : ImagePayload :=
    { model := cfg.model
    , prompt := prompt
    , n := 1
    , size := jsOrStr settings.image_size "1024x1024"
    , quality := none
    , style := none }
  if modelId == "dall-e-3" then
    { base with
      quality := some (jsOrStr settings.image_quality "standard")
    , style := some (jsOrStr settings.image_style "natural") }
  else if modelId == "gpt-image-1" then
    let gptImageQuality := jsOrStr settings.image_quality "high"
    { base with quality := some ((qualityMap gptImageQuality).getD "high") }
  else base

/-- Pre-network part of `generateImage`: key guard, registry re-check, then
the payload and the per-model timeout. -/
def generateImagePlan (modelId prompt : String) (apiKey : Option String)
    (settings : CallSettings) : Except LLMErr OutboundCall :=
  if jsFalsy apiKey then .error (.apiKeyNotConfigured "OpenAI")
  else
    match providers modelId with
    | some modelConfig =>
      if modelConfig.type == "image" then
        .ok (.image modelId modelConfig.endpoint
          (if modelId == "gpt-image-1" then 300000 else 60000)
          (imagePayloadOf modelId modelConfig prompt settings))
      else .error (.invalidImageModel modelId)
    | none => .error (.invalidImageModel modelId)

/-- Pre-network part of `sendMessage`: registry lookup, image-modality guard
on the trailing message (`messages[messages.length-1]` is `undefined` on an
empty array), then dispatch to the per-provider plan. -/
def sendMessagePlan (model : String) (messages : List Message)
    (apiKeys : ApiKeys) (settings : CallSettings) :
    Except LLMErr OutboundCall :=
  match providers model with
  | none => .error (.unsupportedModel model)
  | some providerConfig =>
    if providerConfig.type == "image" then
      match messages.getLast? with
      | none => .error .imagePromptRequired
      | some lastMessage =>
        if lastMessage.role != "user" then .error .imagePromptRequired
        else generateImagePlan model lastMessage.content apiKeys.openai settings
    else if providerConfig.provider == "openai" then
      callOpenAIPlan providerConfig.endpoint providerConfig.model messages
        apiKeys.openai settings
    else if providerConfig.provider == "anthropic" then
      callAnthropicPlan providerConfig.endpoint providerConfig.model messages
        apiKeys.anthropic settings
    else .error (.unsupportedProvider providerConfig.provider)

/-! ## `llmService.js`: response normalization (the post-network stage) -/

/-- Normalization in `callOpenAI`: `response.data.choices[0].message`; an
empty `choices` makes the source throw a TypeError that the catch block
rewraps as an `OpenAI API Error`. -/
def normalizeOpenAI (model : String) (reply : OpenAIReply) :
    Except LLMErr NormalizedResponse :=
  match reply.choices.head? with
  | some choice =>
    .ok { content := choice.message.content, type := "text", model := model
        , usage := reply.usage, provider := "openai" }
  | none => .error (.openaiApiError "Cannot read properties of undefined (reading 'message')")

/-- Normalization in `callAnthropic`: `response.data.content[0].text`. -/
def normalizeAnthropic (model : String) (reply : AnthropicReply) :
    Except LLMErr NormalizedResponse :=
  match reply.content.head? with
  | some block =>
    .ok { content := block.text, type := "text", model := model
        , usage := reply.usage, provider := "anthropic" }
  | none => .error (.anthropicApiError "Cannot read properties of undefined (reading 'text')")

/-- Evaluation of `imageData?.revised_prompt || null` on the first reply datum. -/
def imageRevisedPromptOf (imageData : Option ImageDatum) : Option String :=
  match imageData.bind ImageDatum.revised_prompt with
  | some r => if r == "" then none else some r
  | none => none

/-- The `imageUrl` computation in `generateImage`: the first datum's `url`
when truthy, else a `data:image/png;base64,` data-URL built from a truthy
`b64_json`, else whatever falsy value `url` had. -/
def imageUrlOf (imageData : Option ImageDatum) : Option String :=
  if jsFalsy (imageData.bind ImageDatum.url) then
    match imageData.bind ImageDatum.b64_json with
    | some b =>
      if b == "" then imageData.bind ImageDatum.url
      else some ("data:image/png;base64," ++ b)
    | none => imageData.bind ImageDatum.url
  else imageData.bind ImageDatum.url

/-- Normalization in `generateImage`: a falsy `imageUrl` is the
`No image URL found` throw — which the surrounding catch rewraps into the
`Response structure issue` error. -/
def normalizeImage (modelId prompt : String) (reply : ImageReply) :
    Except LLMErr NormalizedResponse :=
  match imageUrlOf reply.data.head? with
  | some u =>
    if u == "" then .error (.imageStructureIssue modelId)
    else
      .ok { content := u, type := "image", model := modelId
          , provider := "openai", prompt := some prompt
          , revised_prompt := imageRevisedPromptOf reply.data.head? }
  | none => .error (.imageStructureIssue modelId)

/-- The network boundary: what each `axios.post` returns for a given
endpoint/payload (with `Except String` carrying a transport or non-2xx
failure's message). -/
structure Network where
  openaiChat : String → OpenAIPayload → Except String OpenAIReply
  anthropicChat : String → AnthropicPayload → Except String AnthropicReply
  imageGen : String → Nat → ImagePayload → Except String ImageReply

/-- Execute a planned call against the network model and normalize, wrapping
transport failures the way each catch block does. -/
def runCall (net : Network) : OutboundCall → Except LLMErr NormalizedResponse
  | .openai endpoint payload =>
    match net.openaiChat endpoint payload with
    | .ok reply => normalizeOpenAI payload.model reply
    | .error msg => .error (.openaiApiError msg)
  | .anthropic endpoint payload =>
    match net.anthropicChat endpoint payload with
    | .ok reply => normalizeAnthropic payload.model reply
    | .error msg => .error (.anthropicApiError msg)
  | .image modelId endpoint timeoutMs payload =>
    match net.imageGen endpoint timeoutMs payload with
    | .ok reply => normalizeImage modelId payload.prompt reply
    | .error msg => .error (.imageGenerationFailed msg)

/-- Model of `LLMService.sendMessage`, end to end: the pre-network stage followed by
the single outbound call and its normalization. -/
def sendMessage (net : Network) (model : String) (messages : List Message)
    (apiKeys : ApiKeys) (settings : CallSettings) :
    Except LLMErr NormalizedResponse :=
  match sendMessagePlan model messages apiKeys settings with
  | .error e => .error e
  | .ok call => runCall net call

/-- Model of `LLMService.validateModel`. -/
def validateModel (model : String) : Bool :=
  (providers model).isSome

/-! ## Concrete instances used by witnesses and counterexamples -/

/-- A concrete instantiation of the crypto interface: constant digest,
encryption the identity on byte lists, decryption always succeeding.  Used
to evaluate the credential theorems on concrete inputs. -/
def idCrypto : CryptoLib :=
  ⟨fun _ => List.replicate 32 0, fun _ _ pt => pt, fun _ _ ct => some ct⟩

/-- A stub network returning fixed well-formed replies, used to evaluate the
dispatch theorems on concrete inputs. -/
def stubNet : Network :=
  { openaiChat := fun _ _ => .ok { choices := [⟨⟨"assistant", "hello"⟩⟩] }
  , anthropicChat := fun _ _ => .ok { content := [⟨"hello"⟩] }
  , imageGen := fun _ _ _ => .ok { data := [{ url := some "https://img.example/x.png" }] } }

/-! ## Lemmas about the byte/hex plumbing -/

theorem hexVal_hexDigit : ∀ n < 16, hexVal (hexDigit n) = some n := by decide

theorem hexDigit_ne_colon (n : Nat) : hexDigit n ≠ ':' := by
  unfold hexDigit
  split <;> decide

theorem colon_not_mem_bytesToHexChars (bs : List Nat) :
    ':' ∉ bytesToHexChars bs := by
  induction bs with
  | nil => simp [bytesToHexChars]
  | cons b rest ih =>
    intro h
    simp only [bytesToHexChars, List.mem_cons] at h
    rcases h with h | h | h
    · exact hexDigit_ne_colon _ h.symm
    · exact hexDigit_ne_colon _ h.symm
    · exact ih h

theorem hexToBytes_bytesToHexChars (bs : List Nat) (h : ∀ b ∈ bs, b < 256) :
    hexToBytes (bytesToHexChars bs) = bs := by
  induction bs with
  | nil => rfl
  | cons b rest ih =>
    have hb : b < 256 := h b (by simp)
    have h1 : b / 16 < 16 := Nat.div_lt_of_lt_mul (by omega)
    have h2 : b % 16 < 16 := Nat.mod_lt _ (by omega)
    have hrest : ∀ x ∈ rest, x < 256 := fun x hx => h x (by simp [hx])
    simp only [bytesToHexChars, hexToBytes, hexVal_hexDigit _ h1, hexVal_hexDigit _ h2]
    rw [Nat.div_add_mod, ih hrest]

theorem jsSplit_no_sep (sep : Char) (b : List Char) (hb : sep ∉ b) :
    jsSplit sep b = [b] := by
  induction b with
  | nil => rfl
  | cons c rest ih =>
    have hc : ¬(c = sep) := fun h => hb (by simp [h])
    have hrest : sep ∉ rest := fun h => hb (by simp [h])
    simp [jsSplit, hc, ih hrest]

theorem jsSplit_append (sep : Char) (a b : List Char) (ha : sep ∉ a) :
    jsSplit sep (a ++ sep :: b) = a :: jsSplit sep b := by
  induction a with
  | nil => simp [jsSplit]
  | cons c rest ih =>
    have hc : ¬(c = sep) := fun h => ha (by simp [h])
    have hrest : sep ∉ rest := fun h => ha (by simp [h])
    simp [jsSplit, hc, ih hrest]

theorem bytesToStr_utf8Bytes (s : String) : bytesToStr (utf8Bytes s) = s := by
  unfold bytesToStr utf8Bytes
  rw [List.map_map,
    show (Char.ofNat ∘ Char.toNat) = id from funext Char.ofNat_toNat, List.map_id]

theorem dbLookup_upsertRow (rows : List (String × String)) (p v : String) :
    dbLookup (upsertRow rows p v) p = some v := by
  induction rows with
  | nil => simp [upsertRow, dbLookup]
  | cons r rest ih =>
    obtain ⟨q, w⟩ := r
    by_cases h : q = p
    · simp [upsertRow, h, dbLookup]
    · simp [upsertRow, h, dbLookup, ih]

theorem encryptApiKey_data (L : CryptoLib) (env : Option String) (iv : List Nat)
    (apiKey : String) :
    (encryptApiKey L env iv apiKey).data
      = bytesToHexChars iv
        ++ ':' :: bytesToHexChars
          (L.aesEnc (getEncryptionKey L env) iv (utf8Bytes apiKey)) := by
  simp [encryptApiKey, bytesToHex, String.data_append]

/-- Decrypting what `encryptApiKey` persisted recovers the plaintext, given
a 16-byte IV, byte-valued cipher output, and the library contract that
decryption inverts encryption at this key and IV. -/
theorem decryptApiKey_encryptApiKey (L : CryptoLib) (env : Option String)
    (iv : List Nat) (k : String)
    (hiv_len : iv.length = 16)
    (hiv_bytes : ∀ b ∈ iv, b < 256)
    (hct_bytes : ∀ b ∈ L.aesEnc (getEncryptionKey L env) iv (utf8Bytes k), b < 256)
    (hdec : L.aesDec (getEncryptionKey L env) iv
        (L.aesEnc (getEncryptionKey L env) iv (utf8Bytes k)) = some (utf8Bytes k)) :
    decryptApiKey L env (encryptApiKey L env iv k) = some k := by
  unfold decryptApiKey
  rw [encryptApiKey_data,
    jsSplit_append _ _ _ (colon_not_mem_bytesToHexChars iv),
    jsSplit_no_sep _ _ (colon_not_mem_bytesToHexChars _)]
  simp only [hexToBytes_bytesToHexChars iv hiv_bytes,
    hexToBytes_bytesToHexChars _ hct_bytes, hiv_len, if_true, hdec,
    bytesToStr_utf8Bytes]

/-! ## Claim theorems: credential store -/

/-- C1: Credential round-trip.  For every provider name and printable-ASCII
key string of length 10 to 200, `getActualApiKey` after `setApiKey` (same
key-derivation secret, fresh 16-byte IV) returns exactly the stored key, and
the persisted value is the hex IV, a `':'` separator, and the hex
ciphertext.  The crypto-library contract — decryption inverts encryption at
this derived key and IV, and ciphertexts are byte lists — is taken as a
hypothesis, since AES itself is external library code. -/
theorem c1_credential_roundtrip (L : CryptoLib) (encEnv envO envA : Option String)
    (rows : List (String × String)) (provider k : String) (iv : List Nat)
    (hiv_len : iv.length = 16)
    (hiv_bytes : ∀ b ∈ iv, b < 256)
    (hk_lo : 10 ≤ k.length) (hk_hi : k.length ≤ 200)
    (hk_ascii : ∀ c ∈ k.data, 32 ≤ c.toNat ∧ c.toNat ≤ 126)
    (hct_bytes : ∀ b ∈ L.aesEnc (getEncryptionKey L encEnv) iv (utf8Bytes k), b < 256)
    (hdec : L.aesDec (getEncryptionKey L encEnv) iv
        (L.aesEnc (getEncryptionKey L encEnv) iv (utf8Bytes k)) = some (utf8Bytes k)) :
    getActualApiKey L encEnv envO envA
        (setApiKey L encEnv iv rows provider k) provider = some k
    ∧ encryptApiKey L encEnv iv k
      = bytesToHex iv ++ ":"
        ++ bytesToHex (L.aesEnc (getEncryptionKey L encEnv) iv (utf8Bytes k)) := by
  refine ⟨?_, rfl⟩
  have hne : encryptApiKey L encEnv iv k ≠ "" := by
    intro h
    have hd := congrArg String.data h
    rw [encryptApiKey_data] at hd
    simp at hd
  simp only [getActualApiKey, setApiKey, dbLookup_upsertRow]
  rw [if_neg hne,
    decryptApiKey_encryptApiKey L encEnv iv k hiv_len hiv_bytes hct_bytes hdec]

theorem c1_credential_roundtrip_witness :
    getActualApiKey idCrypto none none none
        (setApiKey idCrypto none (List.replicate 16 0) [] "openai" "abcdefghij")
        "openai" = some "abcdefghij"
    ∧ encryptApiKey idCrypto none (List.replicate 16 0) "abcdefghij"
      = bytesToHex (List.replicate 16 0) ++ ":"
        ++ bytesToHex (idCrypto.aesEnc (getEncryptionKey idCrypto none)
            (List.replicate 16 0) (utf8Bytes "abcdefghij")) :=
  c1_credential_roundtrip idCrypto none none none [] "openai" "abcdefghij"
    (List.replicate 16 0) (by decide) (by decide) (by decide) (by decide)
    (by decide) (by decide) rfl

/-- C2: Silent decryption fallback.  When a stored credential row exists and
is truthy but `decryptApiKey` fails on it (for any reason, in particular a
changed key-derivation secret), `getActualApiKey` returns the
environment-resolved value for the provider — and `none` when no environment
value exists.  The result is a plain value, never an exception, and carries
nothing of the decryption error. -/
theorem c2_decryption_fallback (L : CryptoLib) (encEnv envO envA : Option String)
    (rows : List (String × String)) (provider kh : String)
    (hrow : dbLookup rows provider = some kh)
    (hkh : kh ≠ "")
    (hfail : decryptApiKey L encEnv kh = none) :
    getActualApiKey L encEnv envO envA rows provider
      = getEnvApiKey envO envA provider
    ∧ (envO = none → envA = none →
        getActualApiKey L encEnv envO envA rows provider = none) := by
  have h1 : getActualApiKey L encEnv envO envA rows provider
      = getEnvApiKey envO envA provider := by
    simp only [getActualApiKey, hrow]
    rw [if_neg hkh, hfail]
  refine ⟨h1, fun hO hA => ?_⟩
  rw [h1]
  subst hO
  subst hA
  unfold getEnvApiKey
  split_ifs <;> rfl

theorem c2_decryption_fallback_witness :
    getActualApiKey idCrypto none none none [("openai", "00:00")] "openai"
      = getEnvApiKey none none "openai"
    ∧ getActualApiKey idCrypto none none none [("openai", "00:00")] "openai"
      = none :=
  have h := c2_decryption_fallback idCrypto none none none [("openai", "00:00")]
    "openai" "00:00" (by decide) (by decide) (by decide)
  ⟨h.1, h.2 rfl rfl⟩

/-- C10 (implicit): `getApiKey` reports `true` exactly when a stored row
exists for the provider — it takes no crypto argument at all, so the answer
is independent of decryptability — and consequently it can report `true`
while `getActualApiKey` actually resolves to `none`: witnessed by a stored
value whose IV segment is not 16 bytes, which fails decryption and falls
back to an absent environment value. -/
theorem c10_haskey_existence (rows : List (String × String)) (provider : String) :
    (getApiKey rows provider = true ↔ ∃ kh, dbLookup rows provider = some kh)
    ∧ (getApiKey [("openai", "00:00")] "openai" = true
       ∧ getActualApiKey idCrypto none none none [("openai", "00:00")] "openai"
         = none) := by
  refine ⟨?_, by decide, by decide⟩
  simp [getApiKey, Option.isSome_iff_exists]

/-! ## Lemmas about the dispatch pipeline -/

/-- The model string each successful call path stamps into the normalized
response: the logical id for image calls, the payload's wire model for the
two text paths. -/
def callModelOf : OutboundCall → String
  | .openai _ p => p.model
  | .anthropic _ p => p.model
  | .image modelId _ _ _ => modelId

theorem normalizeOpenAI_model (model : String) (reply : OpenAIReply)
    (r : NormalizedResponse) (h : normalizeOpenAI model reply = .ok r) :
    r.model = model := by
  unfold normalizeOpenAI at h
  split at h
  · rw [← Except.ok.inj h]
  · simp at h

theorem normalizeAnthropic_model (model : String) (reply : AnthropicReply)
    (r : NormalizedResponse) (h : normalizeAnthropic model reply = .ok r) :
    r.model = model := by
  unfold normalizeAnthropic at h
  split at h
  · rw [← Except.ok.inj h]
  · simp at h

theorem normalizeImage_model (modelId prompt : String) (reply : ImageReply)
    (r : NormalizedResponse) (h : normalizeImage modelId prompt reply = .ok r) :
    r.model = modelId := by
  unfold normalizeImage at h
  split at h
  · split at h
    · simp at h
    · rw [← Except.ok.inj h]
  · simp at h

theorem runCall_model (net : Network) (call : OutboundCall)
    (r : NormalizedResponse) (h : runCall net call = .ok r) :
    r.model = callModelOf call := by
  cases call with
  | openai endpoint payload =>
    simp only [runCall] at h
    split at h
    · exact normalizeOpenAI_model _ _ _ h
    · simp at h
  | anthropic endpoint payload =>
    simp only [runCall] at h
    split at h
    · exact normalizeAnthropic_model _ _ _ h
    · simp at h
  | image modelId endpoint timeoutMs payload =>
    simp only [runCall] at h
    split at h
    · exact normalizeImage_model _ _ _ _ h
    · simp at h

theorem sendMessagePlan_call_model (model : String) (messages : List Message)
    (apiKeys : ApiKeys) (settings : CallSettings) (call : OutboundCall)
    (cfg : ProviderConfig)
    (hcfg : providers model = some cfg)
    (h : sendMessagePlan model messages apiKeys settings = .ok call) :
    callModelOf call = if cfg.type == "image" then model else cfg.model := by
  unfold sendMessagePlan at h
  rw [hcfg] at h
  cases htb : (cfg.type == "image") with
  | true =>
    simp only [htb, if_true] at h ⊢
    split at h
    · simp at h
    · split at h
      · simp at h
      · unfold generateImagePlan at h
        split at h
        · simp at h
        · split at h
          · rename_i x modelConfig heq
            rw [hcfg] at heq
            injection heq with heq2
            subst heq2
            simp only [htb, if_true] at h
            rw [← Except.ok.inj h]
            rfl
          · rename_i x heq
            rw [hcfg] at heq
            cases heq
  | false =>
    simp only [htb, Bool.false_eq_true, if_false] at h ⊢
    split at h
    · unfold callOpenAIPlan at h
      split at h
      · simp at h
      · rw [← Except.ok.inj h]
        rfl
    · split at h
      · unfold callAnthropicPlan at h
        split at h
        · simp at h
        · rw [← Except.ok.inj h]
          rfl
      · simp at h

/-! ## Claim theorems: dispatch facade and translators -/

/-- C3 counterexample: a successful text send for the logical id
`claude-3-sonnet` produces a normalized response whose `model` field is the
wire-level name `claude-3-sonnet-20240229`, not the logical id the caller
passed in — so the claim that the `model` field always equals the logical id
is false. -/
theorem c3_counterexample :
    sendMessage stubNet "claude-3-sonnet" [⟨"user", "hi"⟩] ⟨none, some "k"⟩ {}
      = .ok { content := "hello", type := "text", model := "claude-3-sonnet-20240229"
            , usage := none, provider := "anthropic" }
    ∧ ("claude-3-sonnet-20240229" : String) ≠ "claude-3-sonnet" :=
  ⟨rfl, by decide⟩

/-- C3 amended: for every successful `sendMessage`, the normalized `model`
field equals the logical model id for image modality, and the registry's
wire-level model name for text modality (these coincide for every OpenAI
text model but differ for the three Claude models). -/
theorem c3_model_field (net : Network) (model : String) (messages : List Message)
    (apiKeys : ApiKeys) (settings : CallSettings) (r : NormalizedResponse)
    (cfg : ProviderConfig)
    (hcfg : providers model = some cfg)
    (hok : sendMessage net model messages apiKeys settings = .ok r) :
    r.model = if cfg.type == "image" then model else cfg.model := by
  unfold sendMessage at hok
  cases hplan : sendMessagePlan model messages apiKeys settings with
  | error e => rw [hplan] at hok; simp at hok
  | ok call =>
    rw [hplan] at hok
    rw [runCall_model net call r hok,
      sendMessagePlan_call_model model messages apiKeys settings call cfg hcfg hplan]

theorem c3_model_field_witness :
    ({ content := "hello", type := "text", model := "gpt-4", usage := none
     , provider := "openai" } : NormalizedResponse).model
      = if (("text" : String) == "image") then "gpt-4" else "gpt-4" :=
  c3_model_field stubNet "gpt-4" [⟨"user", "hi"⟩] ⟨some "k", none⟩ {}
    { content := "hello", type := "text", model := "gpt-4", usage := none
    , provider := "openai" }
    ⟨"openai", "https://api.openai.com/v1/chat/completions", "gpt-4", "text"⟩
    rfl rfl

/-- Modelled from the claim's words, as the refutation target for C4: the
LEADING system-role message (if any) is removed and sent as the top-level
system field; all remaining messages (including any later system message)
stay in the array and are coerced so non-assistant roles become user. -/
def claimAnthropicPayloadOf (model : String) (messages : List Message)
    (settings : CallSettings) : AnthropicPayload :=
  let split :=
    match messages with
    | m :: rest =>
      if m.role == "system" then (some m.content, rest) else (none, messages)
    | [] => (none, ([] : List Message))
  { model := model
  , max_tokens := jsOrNat settings.max_tokens 1024
  , temperature := jsOrRat settings.temperature 0.7
  , messages := split.2.map coerceRole
  , system := split.1 }

/-- C4 counterexample: on `[user "hi", system "s"]` there is no leading
system message, so the claim as stated sends no top-level system field and
keeps the (coerced) system message in the array — but the code `find`s the
system message anywhere, sends its content as the top-level field, and
`filter`s it out of the array.  The two payloads differ. -/
theorem c4_counterexample :
    (anthropicPayloadOf "claude-3-sonnet-20240229"
        [⟨"user", "hi"⟩, ⟨"system", "s"⟩] {}).system = some "s"
    ∧ (claimAnthropicPayloadOf "claude-3-sonnet-20240229"
        [⟨"user", "hi"⟩, ⟨"system", "s"⟩] {}).system = none
    ∧ (anthropicPayloadOf "claude-3-sonnet-20240229"
        [⟨"user", "hi"⟩, ⟨"system", "s"⟩] {}).messages.length = 1
    ∧ (claimAnthropicPayloadOf "claude-3-sonnet-20240229"
        [⟨"user", "hi"⟩, ⟨"system", "s"⟩] {}).messages.length = 2 :=
  ⟨rfl, rfl, rfl, rfl⟩

/-- C4 amended: `callAnthropic` extracts the FIRST system-role message found
anywhere in the list (not only a leading one) and sends its content as the
separate top-level `system` field; it removes ALL system-role messages from
the message array; every remaining message is sent with role `user` unless
its role is `assistant`, which is kept; and the normalized `content` is
taken from the first content block of the provider reply. -/
theorem c4_anthropic_translation (model : String) (messages : List Message)
    (settings : CallSettings) (reply : AnthropicReply) (r : NormalizedResponse)
    (hok : normalizeAnthropic model reply = .ok r) :
    (anthropicPayloadOf model messages settings).system
      = (messages.find? fun m => m.role == "system").map Message.content
    ∧ (anthropicPayloadOf model messages settings).messages
      = (messages.filter fun m => m.role != "system").map coerceRole
    ∧ ((anthropicPayloadOf model messages settings).messages.all
        fun m => m.role == "assistant" || m.role == "user") = true
    ∧ reply.content.head?.map ContentBlock.text = some r.content := by
  refine ⟨rfl, rfl, ?_, ?_⟩
  · rw [List.all_eq_true]
    intro m hm
    simp only [anthropicPayloadOf, List.mem_map] at hm
    obtain ⟨m', _, rfl⟩ := hm
    unfold coerceRole
    by_cases h : m'.role == "assistant" <;> simp [h]
  · unfold normalizeAnthropic at hok
    split at hok
    · rename_i block hh
      rw [hh]
      show some block.text = some r.content
      rw [← Except.ok.inj hok]
    · simp at hok

theorem c4_anthropic_translation_witness :
    (anthropicPayloadOf "claude-3-sonnet-20240229"
        [⟨"user", "hi"⟩, ⟨"system", "s"⟩] {}).system
      = (([⟨"user", "hi"⟩, ⟨"system", "s"⟩] : List Message).find?
          fun m => m.role == "system").map Message.content
    ∧ (anthropicPayloadOf "claude-3-sonnet-20240229"
        [⟨"user", "hi"⟩, ⟨"system", "s"⟩] {}).messages
      = (([⟨"user", "hi"⟩, ⟨"system", "s"⟩] : List Message).filter
          fun m => m.role != "system").map coerceRole
    ∧ ((anthropicPayloadOf "claude-3-sonnet-20240229"
        [⟨"user", "hi"⟩, ⟨"system", "s"⟩] {}).messages.all
        fun m => m.role == "assistant" || m.role == "user") = true
    ∧ ({ content := [⟨"hello"⟩] } : AnthropicReply).content.head?.map ContentBlock.text
      = some ({ content := "hello", type := "text"
              , model := "claude-3-sonnet-20240229", usage := none
              , provider := "anthropic" } : NormalizedResponse).content :=
  c4_anthropic_translation "claude-3-sonnet-20240229"
    [⟨"user", "hi"⟩, ⟨"system", "s"⟩] {} { content := [⟨"hello"⟩] }
    { content := "hello", type := "text", model := "claude-3-sonnet-20240229"
    , usage := none, provider := "anthropic" } rfl

/-- C5 counterexample: temperature `0` lies in the claimed range `[0,2]`,
but `parseFloat(settings.temperature) || 0.7` treats `0` as falsy, so the
outbound payload carries `0.7`, not the caller-supplied `0`. -/
theorem c5_counterexample :
    ((0 : Rat) ≤ 0 ∧ (0 : Rat) ≤ 2)
    ∧ (openAIPayloadOf "gpt-4" [⟨"user", "hi"⟩]
        { temperature := some 0 }).temperature = 0.7
    ∧ (0.7 : Rat) ≠ 0 := by
  refine ⟨⟨le_refl 0, by norm_num⟩, rfl, by norm_num⟩

/-- C5 amended: the outbound temperature equals the caller-supplied value
when one in `(0,2]` is supplied and `0.7` when unspecified — a supplied `0`
also falls back to `0.7` (the counterexample) — and the outbound
`max_tokens` equals the caller-supplied value in `[1,8000]` when supplied,
else `2000` for the OpenAI variant and `1024` for the Anthropic variant. -/
theorem c5_dispatch_defaults (model : String) (messages : List Message)
    (q : Rat) (n : Nat)
    (hq0 : 0 < q) (hq2 : q ≤ 2) (hn1 : 1 ≤ n) (hn8 : n ≤ 8000) :
    (openAIPayloadOf model messages {}).temperature = 0.7
    ∧ (openAIPayloadOf model messages {}).max_tokens = 2000
    ∧ (anthropicPayloadOf model messages {}).temperature = 0.7
    ∧ (anthropicPayloadOf model messages {}).max_tokens = 1024
    ∧ (openAIPayloadOf model messages
        { temperature := some q, max_tokens := some n }).temperature = q
    ∧ (openAIPayloadOf model messages
        { temperature := some q, max_tokens := some n }).max_tokens = n
    ∧ (anthropicPayloadOf model messages
        { temperature := some q, max_tokens := some n }).temperature = q
    ∧ (anthropicPayloadOf model messages
        { temperature := some q, max_tokens := some n }).max_tokens = n := by
  have hq : q ≠ 0 := ne_of_gt hq0
  have hn : n ≠ 0 := by omega
  refine ⟨rfl, rfl, rfl, rfl, ?_, ?_, ?_, ?_⟩
  · simp [openAIPayloadOf, jsOrRat, hq]
  · simp [openAIPayloadOf, jsOrNat, hn]
  · simp [anthropicPayloadOf, jsOrRat, hq]
  · simp [anthropicPayloadOf, jsOrNat, hn]

theorem c5_dispatch_defaults_witness :
    (openAIPayloadOf "gpt-4" [⟨"user", "hi"⟩] {}).temperature = 0.7
    ∧ (openAIPayloadOf "gpt-4" [⟨"user", "hi"⟩] {}).max_tokens = 2000
    ∧ (anthropicPayloadOf "gpt-4" [⟨"user", "hi"⟩] {}).temperature = 0.7
    ∧ (anthropicPayloadOf "gpt-4" [⟨"user", "hi"⟩] {}).max_tokens = 1024
    ∧ (openAIPayloadOf "gpt-4" [⟨"user", "hi"⟩]
        { temperature := some 1, max_tokens := some 100 }).temperature = 1
    ∧ (openAIPayloadOf "gpt-4" [⟨"user", "hi"⟩]
        { temperature := some 1, max_tokens := some 100 }).max_tokens = 100
    ∧ (anthropicPayloadOf "gpt-4" [⟨"user", "hi"⟩]
        { temperature := some 1, max_tokens := some 100 }).temperature = 1
    ∧ (anthropicPayloadOf "gpt-4" [⟨"user", "hi"⟩]
        { temperature := some 1, max_tokens := some 100 }).max_tokens = 100 :=
  c5_dispatch_defaults "gpt-4" [⟨"user", "hi"⟩] 1 100
    (by norm_num) (by norm_num) (by norm_num) (by norm_num)

/-- C6: Image-dispatch precondition.  For an image-modality model, an empty
message list or a trailing non-user message makes `sendMessage` fail with
the client-input error (`Image generation requires a user prompt`) already
in the pre-network stage, for every network model; and when the trailing
message is user-authored, the plan is exactly the image pipeline applied to
that message's `content` — nothing else from the conversation is used. -/
theorem c6_image_guard (net : Network) (model : String) (cfg : ProviderConfig)
    (messagesBad messagesOk : List Message) (m : Message)
    (apiKeys : ApiKeys) (settings : CallSettings)
    (hcfg : providers model = some cfg) (himg : cfg.type = "image")
    (hbad : messagesBad.getLast? = none
      ∨ ∃ mb, messagesBad.getLast? = some mb ∧ mb.role ≠ "user")
    (hlast : messagesOk.getLast? = some m) (hrole : m.role = "user") :
    sendMessagePlan model messagesBad apiKeys settings
      = .error .imagePromptRequired
    ∧ sendMessage net model messagesBad apiKeys settings
      = .error .imagePromptRequired
    ∧ sendMessagePlan model messagesOk apiKeys settings
      = generateImagePlan model m.content apiKeys.openai settings := by
  have htype : (cfg.type == "image") = true := by simp [himg]
  have h1 : sendMessagePlan model messagesBad apiKeys settings
      = .error .imagePromptRequired := by
    unfold sendMessagePlan
    rw [hcfg]
    simp only [htype, if_true]
    rcases hbad with h | ⟨mb, hmb, hr⟩
    · rw [h]
    · rw [hmb]
      have hb : (mb.role != "user") = true := bne_iff_ne.mpr hr
      simp [hb]
  refine ⟨h1, ?_, ?_⟩
  · unfold sendMessage
    rw [h1]
  · unfold sendMessagePlan
    rw [hcfg]
    simp only [htype, if_true]
    rw [hlast]
    have hb : (m.role != "user") = false := by simp [hrole]
    simp [hb]

theorem c6_image_guard_witness :
    sendMessagePlan "dall-e-3" [⟨"assistant", "x"⟩] ⟨some "k", none⟩ {}
      = .error .imagePromptRequired
    ∧ sendMessage stubNet "dall-e-3" [⟨"assistant", "x"⟩] ⟨some "k", none⟩ {}
      = .error .imagePromptRequired
    ∧ sendMessagePlan "dall-e-3" [⟨"user", "a cat"⟩] ⟨some "k", none⟩ {}
      = generateImagePlan "dall-e-3"
          (Message.content ⟨"user", "a cat"⟩) (ApiKeys.openai ⟨some "k", none⟩) {} :=
  c6_image_guard stubNet "dall-e-3"
    ⟨"openai", "https://api.openai.com/v1/images/generations", "dall-e-3", "image"⟩
    [⟨"assistant", "x"⟩] [⟨"user", "a cat"⟩] ⟨"user", "a cat"⟩
    ⟨some "k", none⟩ {} rfl rfl
    (Or.inr ⟨⟨"assistant", "x"⟩, rfl, by decide⟩) rfl rfl

/-- C7: Unknown model id.  For every model id missing from the registry,
the pre-network stage of `sendMessage` fails with exactly the
`Unsupported model` client-input error — the conclusion holds for every
credential set, settings object, and network, so no credential is consulted
and no provider call is shaped or issued. -/
theorem c7_unknown_model (net : Network) (model : String)
    (messages : List Message) (apiKeys : ApiKeys) (settings : CallSettings)
    (hunk : providers model = none) :
    sendMessagePlan model messages apiKeys settings
      = .error (.unsupportedModel model)
    ∧ sendMessage net model messages apiKeys settings
      = .error (.unsupportedModel model) := by
  have h1 : sendMessagePlan model messages apiKeys settings
      = .error (.unsupportedModel model) := by
    unfold sendMessagePlan
    rw [hunk]
  refine ⟨h1, ?_⟩
  unfold sendMessage
  rw [h1]

theorem c7_unknown_model_witness :
    sendMessagePlan "not-a-real-model" [⟨"user", "hi"⟩]
        ⟨some "sk-test", some "sk-ant"⟩ {}
      = .error (.unsupportedModel "not-a-real-model")
    ∧ sendMessage stubNet "not-a-real-model" [⟨"user", "hi"⟩]
        ⟨some "sk-test", some "sk-ant"⟩ {}
      = .error (.unsupportedModel "not-a-real-model") :=
  c7_unknown_model stubNet "not-a-real-model" [⟨"user", "hi"⟩]
    ⟨some "sk-test", some "sk-ant"⟩ {} rfl

/-- C8: Image response normalization.  With a direct non-empty URL in the
first datum, `content` is that URL; with no URL and only non-empty base64
data, `content` is `data:image/png;base64,` followed by that data; and with
neither present (including an empty data array), normalization is the hard
`Response structure issue` error — never an empty or default content. -/
theorem c8_image_normalization (modelId prompt u b : String)
    (r1 r2 r3 r4 : ImageReply) (d1 d2 d3 : ImageDatum)
    (h1 : r1.data.head? = some d1) (hu1 : d1.url = some u) (hune : u ≠ "")
    (hr1 : d1.revised_prompt = none)
    (h2 : r2.data.head? = some d2) (hu2 : d2.url = none)
    (hb2 : d2.b64_json = some b) (hbne : b ≠ "") (hr2 : d2.revised_prompt = none)
    (h3 : r3.data.head? = some d3) (hu3 : d3.url = none) (hb3 : d3.b64_json = none)
    (h4 : r4.data = []) :
    normalizeImage modelId prompt r1
      = .ok { content := u, type := "image", model := modelId
            , provider := "openai", prompt := some prompt
            , revised_prompt := none }
    ∧ normalizeImage modelId prompt r2
      = .ok { content := "data:image/png;base64," ++ b, type := "image"
            , model := modelId, provider := "openai", prompt := some prompt
            , revised_prompt := none }
    ∧ normalizeImage modelId prompt r3 = .error (.imageStructureIssue modelId)
    ∧ normalizeImage modelId prompt r4 = .error (.imageStructureIssue modelId) := by
  have hdata : ("data:image/png;base64," ++ b) ≠ "" := by
    intro h
    have hd := congrArg String.data h
    simp [String.data_append] at hd
  refine ⟨?_, ?_, ?_, ?_⟩
  · simp [normalizeImage, imageUrlOf, imageRevisedPromptOf, jsFalsy, h1, hu1,
      hune, hr1]
  · simp [normalizeImage, imageUrlOf, imageRevisedPromptOf, jsFalsy, h2, hu2,
      hb2, hbne, hr2, hdata]
  · simp [normalizeImage, imageUrlOf, imageRevisedPromptOf, jsFalsy, h3, hu3,
      hb3]
  · simp [normalizeImage, imageUrlOf, imageRevisedPromptOf, jsFalsy, h4]

theorem c8_image_normalization_witness :
    normalizeImage "gpt-image-1" "a cat" ⟨[{ url := some "https://img/x.png" }]⟩
      = .ok { content := "https://img/x.png", type := "image"
            , model := "gpt-image-1", provider := "openai"
            , prompt := some "a cat", revised_prompt := none }
    ∧ normalizeImage "gpt-image-1" "a cat" ⟨[{ b64_json := some "QUJD" }]⟩
      = .ok { content := "data:image/png;base64," ++ "QUJD", type := "image"
            , model := "gpt-image-1", provider := "openai"
            , prompt := some "a cat", revised_prompt := none }
    ∧ normalizeImage "gpt-image-1" "a cat" ⟨[{ revised_prompt := some "rp" }]⟩
      = .error (.imageStructureIssue "gpt-image-1")
    ∧ normalizeImage "gpt-image-1" "a cat" ⟨[]⟩
      = .error (.imageStructureIssue "gpt-image-1") :=
  c8_image_normalization "gpt-image-1" "a cat" "https://img/x.png" "QUJD"
    ⟨[{ url := some "https://img/x.png" }]⟩ ⟨[{ b64_json := some "QUJD" }]⟩
    ⟨[{ revised_prompt := some "rp" }]⟩ ⟨[]⟩
    { url := some "https://img/x.png" } { b64_json := some "QUJD" }
    { revised_prompt := some "rp" }
    rfl rfl (by decide) rfl rfl rfl rfl (by decide) rfl rfl rfl rfl rfl

/-- Modelled from the claim's five-case vocabulary for C9: `standard`,
`hd`, `low`, `medium`, `high` map to `medium`, `high`, `low`, `medium`,
`high`; anything else — including an unspecified quality — maps to
`high`. -/
def claimQualityOf (imageQuality : Option String) : String :=
  match imageQuality with
  | none => "high"
  | some s =>
    if s = "standard" then "medium"
    else if s = "hd" then "high"
    else if s = "low" then "low"
    else if s = "medium" then "medium"
    else if s = "high" then "high"
    else "high"

/-- C9: Quality remapping for `gpt-image-1`.  The outbound `quality`
parameter equals the claim's map of the caller-supplied quality, with
`high` for an unspecified or unrecognized value — for every registry entry
and settings object. -/
theorem c9_quality_remap (cfg : ProviderConfig) (prompt : String)
    (settings : CallSettings) :
    (imagePayloadOf "gpt-image-1" cfg prompt settings).quality
      = some (claimQualityOf settings.image_quality) := by
  cases hq : settings.image_quality with
  | none => simp [imagePayloadOf, jsOrStr, hq, claimQualityOf, qualityMap]
  | some s =>
    by_cases h0 : s = ""
    · simp [imagePayloadOf, jsOrStr, hq, h0, claimQualityOf, qualityMap]
    · by_cases h1 : s = "standard"
      · simp [imagePayloadOf, jsOrStr, hq, h0, h1, claimQualityOf, qualityMap]
      · by_cases h2 : s = "hd"
        · simp [imagePayloadOf, jsOrStr, hq, h0, h1, h2, claimQualityOf,
            qualityMap]
        · by_cases h3 : s = "low"
          · simp [imagePayloadOf, jsOrStr, hq, h0, h1, h2, h3, claimQualityOf,
              qualityMap]
          · by_cases h4 : s = "medium"
            · simp [imagePayloadOf, jsOrStr, hq, h0, h1, h2, h3, h4,
                claimQualityOf, qualityMap]
            · by_cases h5 : s = "high"
              · simp [imagePayloadOf, jsOrStr, hq, h0, h1, h2, h3, h4, h5,
                  claimQualityOf, qualityMap]
              · simp [imagePayloadOf, jsOrStr, hq, h0, h1, h2, h3, h4, h5,
                  claimQualityOf, qualityMap]

end EmbeddedAIChat

